import Mathlib

/-!
Verification development for the copy-writer content pipeline.

The Python sources under src/copy-writer are shallowly embedded below:
pure functions become Lean functions, the JSON-file backed history store
becomes explicit state passing, stateful pipeline stages whose only
failure points are external calls (the language model, the disk write)
are parameterised by the outcome of those calls as Except values, and
external collaborators (the language model, the yake keyword extractor,
the textstat readability scorer, clocks and uuid generation) are oracle
parameters, as the specification treats them as external services.
Numeric values are modelled with Rat (the Python code only ever builds
them from decimal literals and integer arithmetic).
-/

/-- Python list membership of a character predicate helper. -/
def charsOf (s : String) : List Char := s.data


/-- Embedding of Python str.upper (ASCII level, as used on LLM replies). -/
def pyUpper (s : String) : String :=
  String.mk (s.data.map Char.toUpper)

/-- Embedding of Python str.lower (ASCII level). -/
def pyLower (s : String) : String :=
  String.mk (s.data.map Char.toLower)

/-- Embedding of Python str.startswith, at the character level. -/
def pyStartsWith (s p : String) : Bool :=
  p.data.isPrefixOf s.data

/-- Embedding of Python str.strip() with no argument: remove leading and
trailing whitespace. -/
def pyStrip (s : String) : String :=
  String.mk (((s.data.dropWhile Char.isWhitespace).reverse.dropWhile
    Char.isWhitespace).reverse)

/-- Embedding of Python s[n:] at the character level. -/
def pyDrop (s : String) (n : Nat) : String :=
  String.mk (s.data.drop n)

/-- Splitting scan for a one character separator, keeping empty
fragments, as Python s.split(sep) does. -/
def pySplitCharAux (sep : Char) (acc : List Char) : List Char → List String
  | [] => [String.mk acc.reverse]
  | c :: rest =>
    if c = sep then String.mk acc.reverse :: pySplitCharAux sep [] rest
    else pySplitCharAux sep (c :: acc) rest

/-- Embedding of Python s.split(sep) for the one character separators the
sources use. -/
def pySplitChar (sep : Char) (s : String) : List String :=
  pySplitCharAux sep [] s.data

/-- Splitting scan on a character predicate, keeping empty fragments. -/
def pySplitPredAux (p : Char → Bool) (acc : List Char) : List Char → List String
  | [] => [String.mk acc.reverse]
  | c :: rest =>
    if p c then String.mk acc.reverse :: pySplitPredAux p [] rest
    else pySplitPredAux p (c :: acc) rest

/-- Replacement scan of Python str.replace: every occurrence, left to
right, non-overlapping; after a match the counter skips the remaining
matched characters. -/
def pyReplaceAux (pat rep : List Char) : Nat → List Char → List Char
  | _, [] => []
  | 0, c :: rest =>
    if pat.isPrefixOf (c :: rest) then
      rep ++ pyReplaceAux pat rep (pat.length - 1) rest
    else c :: pyReplaceAux pat rep 0 rest
  | k + 1, _ :: rest => pyReplaceAux pat rep k rest

/-- Embedding of Python str.replace; every call site of the sources uses
a nonempty pattern. -/
def pyReplace (s pat rep : String) : String :=
  if pat.data = [] then s else String.mk (pyReplaceAux pat.data rep.data 0 s.data)

/-- Embedding of Python str.split() with no argument: split on runs of
whitespace, dropping empty fragments. -/
def pyWords (s : String) : List String :=
  (pySplitPredAux Char.isWhitespace [] s.data).filter (fun w => w ≠ "")

/-- Value of a list of decimal digit characters, most significant first. -/
def digitsVal (ds : List Char) : Nat :=
  ds.foldl (fun a c => a * 10 + (c.toNat - 48)) 0

/-- Embedding of Python int("".join(filter(str.isdigit, s)) or default):
keep the digit characters of s and read them as a number, with a default
when no digit occurs.  Used by the plan and routing parsers. -/
def digitsOrDefault (s : String) (dflt : Nat) : Nat :=
  let ds := s.data.filter Char.isDigit
  if ds = [] then dflt else digitsVal ds

/-- Scanner for the first match of the regular expression
d+(.d+)? used by QualityChecker._extract_score (re.findall, first hit):
returns the integer digits and the fractional digits of the leftmost,
longest numeric substring, if any. -/
def scanNumber : List Char → Option (List Char × List Char)
  | [] => none
  | c :: rest =>
    if c.isDigit then
      let ds := (c :: rest).takeWhile Char.isDigit
      let after := (c :: rest).dropWhile Char.isDigit
      match after with
      | '.' :: rest2 =>
        let fs := rest2.takeWhile Char.isDigit
        if fs = [] then some (ds, []) else some (ds, fs)
      | _ => some (ds, [])
    else scanNumber rest

/-- Rational value of a scanned numeric token (integer part, fraction part). -/
def tokenValue (t : List Char × List Char) : ℚ :=
  (digitsVal t.1 : ℚ) + (digitsVal t.2 : ℚ) / (10 : ℚ) ^ t.2.length

/-- Embedding of QualityChecker._extract_score: first numeric substring of
the text, clamped by max(0, min(100, score)), default 75.0 when the text
holds no number. -/
def extractScore (text : String) : ℚ :=
  match scanNumber text.data with
  | some t => max 0 (min 100 (tokenValue t))
  | none => 75

theorem digitsVal_cast_nonneg (ds : List Char) : (0 : ℚ) ≤ (digitsVal ds : ℚ) := by
  exact_mod_cast Nat.zero_le _

theorem tokenValue_nonneg (t : List Char × List Char) : 0 ≤ tokenValue t := by
  unfold tokenValue
  have h1 : (0 : ℚ) ≤ (digitsVal t.1 : ℚ) := digitsVal_cast_nonneg _
  have h2 : (0 : ℚ) ≤ (digitsVal t.2 : ℚ) / (10 : ℚ) ^ t.2.length := by
    apply div_nonneg (digitsVal_cast_nonneg _)
    positivity
  linarith

theorem scanNumber_eq_none_of_no_digit (cs : List Char)
    (h : ∀ c ∈ cs, ¬ c.isDigit) : scanNumber cs = none := by
  induction cs with
  | nil => rfl
  | cons c rest ih =>
    have hc : ¬ c.isDigit := h c (List.mem_cons_self c rest)
    simp only [scanNumber, hc, if_false]
    exact ih (fun x hx => h x (List.mem_cons_of_mem c hx))

theorem extractScore_nonneg (text : String) : 0 ≤ extractScore text := by
  unfold extractScore
  cases h : scanNumber text.data with
  | none => norm_num
  | some t => simp [le_max_iff]

theorem extractScore_le_100 (text : String) : extractScore text ≤ 100 := by
  unfold extractScore
  cases h : scanNumber text.data with
  | none => norm_num
  | some t =>
    apply max_le
    · norm_num
    · exact le_trans (min_le_left _ _) (by norm_num)

/-- Embedding of models.content_models.ContentRequest (pydantic model).
The content type and priority enums are carried as their string values. -/
structure ContentRequest where
  request_id : String
  topic : String
  content_type : String
  priority : String
  target_audience : Option String
  key_points : Option (List String)
  tone : Option String
  length : Option String
  seo_keywords : Option (List String)
  deadline : Option String
  brand_voice : Option String
  additional_context : Option String
deriving DecidableEq, Repr

/-- Embedding of models.content_models.ContentPlan. -/
structure ContentPlan where
  request_id : String
  title : String
  outline : List String
  target_keywords : List String
  word_count_target : Nat
  tone : String
  key_messages : List String
deriving DecidableEq, Repr

/-- Embedding of models.content_models.ContentDraft. -/
structure ContentDraft where
  request_id : String
  title : String
  content : String
  meta_description : Option String
  tags : Option (List String)
  word_count : Nat
  readability_score : Option ℚ
deriving DecidableEq, Repr

/-- Embedding of models.content_models.QualityReport. -/
structure QualityReport where
  request_id : String
  overall_score : ℚ
  readability_score : ℚ
  seo_score : ℚ
  brand_voice_score : ℚ
  issues : List String
  suggestions : List String
  approved : Bool
deriving DecidableEq, Repr

/-- Values stored in the free-form feedback dictionary handled by
ContentHistory.add_feedback and UserPreferences.learn_from_feedback. -/
inductive FValue where
  | s (v : String)
  | b (v : Bool)
  | q (v : ℚ)
deriving DecidableEq, Repr

/-- Python truthiness of a feedback dictionary value. -/
def FValue.truthy : FValue → Bool
  | .s v => v ≠ ""
  | .b v => v
  | .q v => v ≠ 0

/-- A Python dict with string keys in insertion order. -/
abbrev FDict := List (String × FValue)

/-- Python dict assignment d[k] = v: replace in place if the key exists,
append otherwise (insertion order is preserved). -/
def dictSet (d : FDict) (k : String) (v : FValue) : FDict :=
  if (d.map Prod.fst).contains k then
    d.map (fun p => if p.1 = k then (p.1, v) else p)
  else d ++ [(k, v)]

/-- Python d.get(k, default). -/
def dictGetD (d : FDict) (k : String) (dflt : FValue) : FValue :=
  match d.find? (fun p => p.1 == k) with
  | some p => p.2
  | none => dflt

/-- Python k in d. -/
def dictHasKey (d : FDict) (k : String) : Bool :=
  (d.map Prod.fst).contains k

/-- One entry of the history list, mirroring the dictionary literal built
by ContentHistory.save_content_session. -/
structure Session where
  timestamp : String
  request : ContentRequest
  draft : ContentDraft
  quality_report : QualityReport
  approved : Bool
  feedback : Option FDict
deriving DecidableEq, Repr

/-- The keys of the session dictionary literal of
ContentHistory.save_content_session, in construction order. -/
def sessionKeys : List String :=
  ["timestamp", "request", "draft", "quality_report", "approved", "feedback"]

/-- State of a ContentHistory store: the in-memory list self.history and
the JSON file contents last written by _save_history. -/
structure HistoryState where
  history : List Session
  disk : List Session
deriving DecidableEq, Repr

/-- Embedding of ContentHistory._save_history: the whole in-memory list is
serialised and rewritten to the storage file. -/
def saveHistoryToDisk (st : HistoryState) : HistoryState :=
  { st with disk := st.history }

/-- The session dictionary built by ContentHistory.save_content_session. -/
def mkSession (now : String) (request : ContentRequest) (draft : ContentDraft)
    (quality_report : QualityReport) (approved : Bool) : Session :=
  { timestamp := now
    request := request
    draft := draft
    quality_report := quality_report
    approved := approved
    feedback := none }

/-- Embedding of ContentHistory.save_content_session: append the session
to self.history, then rewrite the file.  The wall clock is the oracle
parameter now. -/
def saveContentSession (now : String) (request : ContentRequest)
    (draft : ContentDraft) (quality_report : QualityReport) (approved : Bool)
    (st : HistoryState) : HistoryState :=
  saveHistoryToDisk { st with
    history := st.history ++ [mkSession now request draft quality_report approved] }

/-- Loop body of ContentHistory.add_feedback: walk the list, set the
feedback of the first session whose draft request_id matches, adding the
timestamp key to the feedback dictionary, and stop at the break. -/
def addFeedbackList (now request_id : String) (feedback : FDict) :
    List Session → List Session
  | [] => []
  | s :: rest =>
    if s.draft.request_id == request_id then
      { s with feedback := some (dictSet feedback "timestamp" (.s now)) } :: rest
    else s :: addFeedbackList now request_id feedback rest

/-- Embedding of ContentHistory.add_feedback: scan-and-match on request id,
then rewrite the file. -/
def addFeedback (now request_id : String) (feedback : FDict)
    (st : HistoryState) : HistoryState :=
  saveHistoryToDisk { st with history := addFeedbackList now request_id feedback st.history }

/-- The two list sections of the quality assessment reply. -/
inductive QSection where
  | issues
  | suggestions
deriving DecidableEq, Repr

/-- The quality_data dictionary of QualityChecker._parse_quality_response. -/
structure QualityData where
  overall_score : ℚ
  content_quality_score : ℚ
  seo_score : ℚ
  readability_score : ℚ
  brand_voice_score : ℚ
  technical_quality_score : ℚ
  issues : List String
  suggestions : List String
  approved : Bool
deriving DecidableEq, Repr

/-- The default fallback values that initialise quality_data. -/
def qualityDefaults : QualityData :=
  { overall_score := 75
    content_quality_score := 75
    seo_score := 75
    readability_score := 75
    brand_voice_score := 75
    technical_quality_score := 75
    issues := []
    suggestions := []
    approved := false }

/-- Body of one iteration of the line loop of
QualityChecker._parse_quality_response over the already stripped line, in
the exact elif order of the source. -/
def processQLineCore (st : QualityData) (cur : Option QSection) (line : String) :
    QualityData × Option QSection :=
  if line = "" then (st, cur)
  else if pyStartsWith line "OVERALL_SCORE:" then
    ({ st with overall_score := extractScore (pyStrip (pyReplace line "OVERALL_SCORE:" "")) }, cur)
  else if pyStartsWith line "Content Quality:" then
    ({ st with content_quality_score := extractScore line }, cur)
  else if pyStartsWith line "SEO Optimization:" then
    ({ st with seo_score := extractScore line }, cur)
  else if pyStartsWith line "Readability:" then
    ({ st with readability_score := extractScore line }, cur)
  else if pyStartsWith line "Brand Voice:" then
    ({ st with brand_voice_score := extractScore line }, cur)
  else if pyStartsWith line "Technical Quality:" then
    ({ st with technical_quality_score := extractScore line }, cur)
  else if line = "ISSUES:" then (st, some .issues)
  else if line = "SUGGESTIONS:" then (st, some .suggestions)
  else if pyStartsWith line "APPROVED:" then
    let approved_text := pyUpper (pyStrip (pyReplace line "APPROVED:" ""))
    ({ st with approved := decide (approved_text ∈ ["YES", "TRUE", "1", "APPROVED"]) }, cur)
  else if cur.isSome ∧ pyStartsWith line "- " then
    match cur with
    | some .issues => ({ st with issues := st.issues ++ [pyStrip (pyDrop line 2)] }, cur)
    | some .suggestions =>
        ({ st with suggestions := st.suggestions ++ [pyStrip (pyDrop line 2)] }, cur)
    | none => (st, cur)
  else (st, cur)

/-- One iteration of the line loop of
QualityChecker._parse_quality_response: the raw line is stripped first. -/
def processQLine (st : QualityData) (cur : Option QSection) (raw : String) :
    QualityData × Option QSection :=
  processQLineCore st cur (pyStrip raw)

/-- The line loop of QualityChecker._parse_quality_response. -/
def parseQLines (st : QualityData) (cur : Option QSection) :
    List String → QualityData
  | [] => st
  | l :: ls =>
    let p := processQLine st cur l
    parseQLines p.1 p.2 ls

/-- Embedding of QualityChecker._parse_quality_response. -/
def parseQualityResponse (response : String) : QualityData :=
  parseQLines qualityDefaults none (pySplitChar '\n' (pyStrip response))

/-- The plan_data dictionary of ContentPlanner._parse_plan_response;
absent keys are none. -/
structure PlanData where
  title : Option String
  target_keywords : Option (List String)
  key_messages : Option (List String)
  word_count_target : Option Nat
  tone_notes : Option String
  outline : Option (List String)
deriving DecidableEq, Repr

/-- The empty plan_data dictionary. -/
def emptyPlanData : PlanData :=
  { title := none, target_keywords := none, key_messages := none
    word_count_target := none, tone_notes := none, outline := none }

/-- Embedding of the WORD_COUNT_TARGET value parse of
ContentPlanner._parse_plan_response: a range such as 800-1000 becomes its
integer average, otherwise the digit characters are read directly, with
the hardcoded fallbacks. -/
def parseWordCount (count : String) : Nat :=
  let parts := pySplitChar '-' count
  if parts.length = 2 then
    let lo := digitsOrDefault (parts.getD 0 "") 800
    let hi := digitsOrDefault (parts.getD 1 "") 1000
    (lo + hi) / 2
  else digitsOrDefault count 800

/-- The numbered outline point markers accepted by the plan parser. -/
def outlineMarkers : List String :=
  ["1.", "2.", "3.", "4.", "5.", "6.", "7.", "8."]

/-- Embedding of Python line.split(".", 1)[1]: everything after the first
dot of the line. -/
def afterFirstDot (line : String) : String :=
  String.mk ((line.data.dropWhile (fun c => c ≠ '.')).drop 1)

/-- Body of one iteration of the line loop of
ContentPlanner._parse_plan_response over the already stripped line, in
the exact elif order of the source; the boolean records whether
current_section is outline, the list accumulates outline_points. -/
def processPlanLineCore (st : PlanData) (inOutline : Bool) (pts : List String)
    (line : String) : PlanData × Bool × List String :=
  if line = "" then (st, inOutline, pts)
  else if pyStartsWith line "TITLE:" then
    ({ st with title := some (pyStrip (pyReplace line "TITLE:" "")) }, inOutline, pts)
  else if pyStartsWith line "OUTLINE:" then (st, true, pts)
  else if pyStartsWith line "TARGET_KEYWORDS:" then
    let kws := (pySplitChar ',' (pyStrip (pyReplace line "TARGET_KEYWORDS:" ""))).map pyStrip
    ({ st with target_keywords := some kws }, inOutline, pts)
  else if pyStartsWith line "KEY_MESSAGES:" then
    let msgs := (pySplitChar ',' (pyStrip (pyReplace line "KEY_MESSAGES:" ""))).map pyStrip
    ({ st with key_messages := some msgs }, inOutline, pts)
  else if pyStartsWith line "WORD_COUNT_TARGET:" then
    let wc := parseWordCount (pyStrip (pyReplace line "WORD_COUNT_TARGET:" ""))
    ({ st with word_count_target := some wc }, inOutline, pts)
  else if pyStartsWith line "TONE_NOTES:" then
    ({ st with tone_notes := some (pyStrip (pyReplace line "TONE_NOTES:" "")) }, inOutline, pts)
  else if inOutline ∧ outlineMarkers.any (fun m => pyStartsWith line m) then
    (st, inOutline, pts ++ [pyStrip (afterFirstDot line)])
  else (st, inOutline, pts)

/-- One iteration of the line loop of ContentPlanner._parse_plan_response:
the raw line is stripped first. -/
def processPlanLine (st : PlanData) (inOutline : Bool) (pts : List String)
    (raw : String) : PlanData × Bool × List String :=
  processPlanLineCore st inOutline pts (pyStrip raw)

/-- The line loop of ContentPlanner._parse_plan_response. -/
def parsePlanLines (st : PlanData) (inOutline : Bool) (pts : List String) :
    List String → PlanData × Bool × List String
  | [] => (st, inOutline, pts)
  | l :: ls =>
    let p := processPlanLine st inOutline pts l
    parsePlanLines p.1 p.2.1 p.2.2 ls

/-- Embedding of ContentPlanner._parse_plan_response: run the line loop,
then store the accumulated outline points if any were found. -/
def parsePlanResponse (response : String) : PlanData :=
  let p := parsePlanLines emptyPlanData false [] (pySplitChar '\n' (pyStrip response))
  if p.2.2 = [] then p.1 else { p.1 with outline := some p.2.2 }

/-- Values of the routing decision dictionary of
ContentRouter._parse_routing_response. -/
inductive RoutingValue where
  | s (v : String)
  | tools (v : List String)
  | n (v : Nat)
deriving DecidableEq, Repr

/-- A routing decision dictionary (string keys, insertion order). -/
abbrev RoutingDecision := List (String × RoutingValue)

/-- Python dict assignment for routing decisions. -/
def rdictSet (d : RoutingDecision) (k : String) (v : RoutingValue) : RoutingDecision :=
  if (d.map Prod.fst).contains k then
    d.map (fun p => if p.1 = k then (p.1, v) else p)
  else d ++ [(k, v)]

/-- Python key.strip().lower().replace(" ", "_") of the routing parser. -/
def routingKey (k : String) : String :=
  pyReplace (pyLower (pyStrip k)) " " "_"

/-- One iteration of the line loop of
ContentRouter._parse_routing_response: lines holding a colon are split at
the first colon into a key and a value, with two specially typed keys. -/
def processRoutingLine (d : RoutingDecision) (line : String) : RoutingDecision :=
  if line.data.contains ':' then
    let key := routingKey (String.mk (line.data.takeWhile (fun c => c ≠ ':')))
    let value := pyStrip (String.mk ((line.data.dropWhile (fun c => c ≠ ':')).drop 1))
    if key = "tools_needed" then
      rdictSet d key (.tools ((pySplitChar ',' value).map pyStrip))
    else if key = "estimated_time" then
      rdictSet d key (.n (digitsOrDefault value 30))
    else rdictSet d key (.s value)
  else d

/-- Embedding of ContentRouter._parse_routing_response. -/
def parseRoutingResponse (response : String) : RoutingDecision :=
  (pySplitChar '\n' (pyStrip response)).foldl processRoutingLine []

/-- Embedding of Python str.count for a nonempty pattern: the number of
non-overlapping occurrences, scanning left to right. -/
def pyCountAux : List Char → List Char → Nat
  | [], l => l.length + 1
  | _ :: _, [] => 0
  | p :: ps, c :: rest =>
    if (p :: ps).isPrefixOf (c :: rest) then
      1 + pyCountAux (p :: ps) ((c :: rest).drop (p :: ps).length)
    else pyCountAux (p :: ps) rest
termination_by _ l => l.length
decreasing_by
  · simp only [List.length_drop, List.length_cons]
    omega
  · simp

/-- Embedding of Python str.count (sub nonempty in all call sites). -/
def pyCount (s pat : String) : Nat :=
  pyCountAux pat.data s.data

/-- Embedding of Python sub in s (substring containment). -/
def pyContains (s pat : String) : Bool :=
  s.data.tails.any (fun t => pat.data.isPrefixOf t)

/-- After 1 to 6 hash marks at a line start, does a whitespace character
follow?  The k counter tracks how many hash marks were consumed. -/
def headerHashes (k : Nat) : List Char → Bool
  | [] => false
  | c :: rest =>
    if c.isWhitespace then true
    else if c = '#' ∧ k < 6 then headerHashes (k + 1) rest
    else false

/-- Embedding of re.search of the multiline header pattern (one to six
hash marks at a line start followed by whitespace, which may be the
newline ending the line) used by SEOAnalyzer.analyze_content. -/
def hasHeaderMatch (atLineStart : Bool) : List Char → Bool
  | [] => false
  | c :: rest =>
    (atLineStart && c = '#' && headerHashes 1 rest) || hasHeaderMatch (c = '\n') rest

/-- Embedding of re.search of the multiline list pattern (a star at a
line start, or anywhere a digit run followed by a dot) used by
SEOAnalyzer.analyze_content. -/
def hasListMatch (atLineStart : Bool) : List Char → Bool
  | [] => false
  | c :: rest =>
    (atLineStart && c = '*') || (c.isDigit && rest.headD ' ' = '.')
      || hasListMatch (c = '\n') rest

/-- Embedding of SEOAnalyzer.analyze_content: the closed-form SEO score,
summing title, length, keyword-density, structure and meta points, capped
at 100.  Scores are integral, so Nat carries them exactly. -/
def seoAnalyzeContent (content title : String) (keywords : List String) : Nat :=
  let titlePts1 := if title ≠ "" ∧ 30 ≤ title.length ∧ title.length ≤ 60 then 15 else 0
  let titlePts2 :=
    if keywords ≠ [] ∧ keywords.any (fun kw => pyContains (pyLower title) (pyLower kw)) then
      5
    else 0
  let word_count := (pyWords content).length
  let lengthPts := (if 300 ≤ word_count then 10 else 0) + (if 1000 ≤ word_count then 5 else 0)
  let keywordPts :=
    if keywords ≠ [] then
      let keyword_mentions :=
        (keywords.map (fun kw => pyCount (pyLower content) (pyLower kw))).sum
      let content_length := (pyWords content).length
      if 0 < content_length then
        let keyword_density : ℚ := (keyword_mentions : ℚ) / (content_length : ℚ)
        if 1 / 100 ≤ keyword_density ∧ keyword_density ≤ 3 / 100 then 25
        else if 0 < keyword_density then 15
        else 0
      else 0
    else 0
  let structurePts :=
    (if hasHeaderMatch true content.data then 10 else 0)
      + (if hasListMatch true content.data then 10 else 0)
  let metaPts := 20
  min (titlePts1 + titlePts2 + lengthPts + keywordPts + structurePts + metaPts) 100

/-- Embedding of ContentPlanner._enhance_keywords: keep the existing
keywords, or fall back to the top five keywords the external yake
extractor returns for the topic (the extractor is the oracle argument,
already accounting for its internal error fallback to an empty list). -/
def enhanceKeywords (extracted : List String) (existing_keywords : List String) :
    List String :=
  if existing_keywords = [] then extracted.take 5 else existing_keywords

/-- Embedding of the ContentPlan construction of ContentPlanner.create_plan
given the text the language model returned: parse the reply and fill the
plan, with the hardcoded fallbacks for absent fields.  The request_id
field is set to a FRESH uuid4 value (the uuid oracle argument), not to the
request's request_id. -/
def createPlanCore (uuid : String) (extracted : List String)
    (request : ContentRequest) (response : String) : ContentPlan :=
  let enhanced_keywords := enhanceKeywords extracted (request.seo_keywords.getD [])
  let plan_data := parsePlanResponse response
  { request_id := uuid
    title := plan_data.title.getD ("Content about " ++ request.topic)
    outline := plan_data.outline.getD []
    target_keywords := enhanced_keywords
    word_count_target := plan_data.word_count_target.getD 800
    tone := plan_data.tone_notes.getD (request.tone.getD "professional")
    key_messages := plan_data.key_messages.getD [] }

/-- Embedding of ContentWriter._generate_meta_description: join the first
three dot-separated fragments and truncate past 155 characters. -/
def generateMetaDescription (_title content : String) : String :=
  let sentences := (pySplitChar '.' content).take 3
  let meta := pyStrip (String.intercalate ". " sentences)
  if 155 < meta.length then meta.take 150 ++ "..." else meta

/-- Embedding of ContentWriter._extract_tags.  The source builds
list(set(tags)) whose order Python leaves unspecified; the embedding
keeps the first occurrences.  No claim depends on the tag order. -/
def extractTags (_content : String) (keywords : List String) : List String :=
  keywords.dedup

/-- Embedding of the ContentDraft construction of
ContentWriter.write_content given the text the language model returned;
the readability score of the external textstat scorer is an oracle
argument (its wrapper never raises, it falls back to 60.0 itself). -/
def writeContentCore (readability : ℚ) (plan : ContentPlan) (response : String) :
    ContentDraft :=
  let content := pyStrip response
  let word_count := (pyWords content).length
  { request_id := plan.request_id
    title := plan.title
    content := content
    meta_description := some (generateMetaDescription plan.title content)
    tags := some (extractTags content plan.target_keywords)
    word_count := word_count
    readability_score := some readability }

/-- Embedding of the QualityReport construction of
QualityChecker.check_quality given the text the language model returned.
The SEO score is computed with keywords from getattr(draft,
"target_keywords", []), and ContentDraft has no such field, so the
keyword list is always empty here. -/
def checkQualityCore (draft : ContentDraft) (response : String) : QualityReport :=
  let seo_score := seoAnalyzeContent draft.content draft.title []
  let quality_data := parseQualityResponse response
  { request_id := draft.request_id
    overall_score := quality_data.overall_score
    readability_score := draft.readability_score.getD 0
    seo_score := (seo_score : ℚ)
    brand_voice_score := quality_data.brand_voice_score
    issues := quality_data.issues
    suggestions := quality_data.suggestions
    approved := quality_data.approved }

/-- The user preference state touched by
UserPreferences.learn_from_feedback. -/
structure UserPrefs where
  successful_tones : List FValue
deriving DecidableEq, Repr

/-- Embedding of UserPreferences.learn_from_feedback: on approved
feedback carrying a tone, record the tone. -/
def learnFromFeedback (prefs : UserPrefs) (_content_type : String)
    (feedback : FDict) : UserPrefs :=
  if (dictGetD feedback "approved" (.b false)).truthy then
    if dictHasKey feedback "tone" then
      { prefs with successful_tones :=
          prefs.successful_tones ++ [dictGetD feedback "tone" (.b false)] }
    else prefs
  else prefs

/-- Oracle outcomes of the external calls one run of
ContentPipeline.process_request performs: the four language model
replies (or the exception text when the call raises), the disk write of
the history save, the fresh uuid the planner draws, the external keyword
extraction and readability services, and the wall clock. -/
structure PipelineEnv where
  routeResp : Except String String
  planResp : Except String String
  writeResp : Except String String
  checkResp : Except String String
  saveOutcome : Except String Unit
  planUuid : String
  extractedKeywords : List String
  readability : ℚ
  now : String
deriving Repr

/-- The payload dictionary ContentPipeline.process_request returns (the
fields of the success and of the failure dictionaries; fields absent from
the returned dictionary are none). -/
structure ProcessPayload where
  success : Bool
  error : Option String
  request_id : Option String
  routing_decision : Option RoutingDecision
  plan : Option ContentPlan
  draft : Option ContentDraft
  quality_report : Option QualityReport
  requires_human_review : Option Bool
  timestamp : String
deriving DecidableEq, Repr

/-- The failure payload of the except branch of
ContentPipeline.process_request. -/
def failurePayload (e : String) (now : String) : ProcessPayload :=
  { success := false
    error := some e
    request_id := none
    routing_decision := none
    plan := none
    draft := none
    quality_report := none
    requires_human_review := none
    timestamp := now }

/-- Embedding of ContentPipeline.process_request: the fixed five-step
sequence routing, planning, writing, quality check, history save.  Any
stage raising is caught by the single try/except and turned into the
failure payload.  If the disk write of the history save raises, the
session was already appended to the in-memory list but the file was not
rewritten, mirroring the source order of append and dump. -/
def processRequest (env : PipelineEnv) (st : HistoryState)
    (request : ContentRequest) : ProcessPayload × HistoryState :=
  match env.routeResp with
  | .error e => (failurePayload e env.now, st)
  | .ok routeText =>
    let routing_decision := parseRoutingResponse routeText
    match env.planResp with
    | .error e => (failurePayload e env.now, st)
    | .ok planText =>
      let plan := createPlanCore env.planUuid env.extractedKeywords request planText
      match env.writeResp with
      | .error e => (failurePayload e env.now, st)
      | .ok writeText =>
        let draft := writeContentCore env.readability plan writeText
        match env.checkResp with
        | .error e => (failurePayload e env.now, st)
        | .ok checkText =>
          let quality_report := checkQualityCore draft checkText
          let appended :=
            { st with history :=
                st.history ++
                  [mkSession env.now request draft quality_report quality_report.approved] }
          match env.saveOutcome with
          | .error e => (failurePayload e env.now, appended)
          | .ok _ =>
            ({ success := true
               error := none
               request_id := some draft.request_id
               routing_decision := some routing_decision
               plan := some plan
               draft := some draft
               quality_report := some quality_report
               requires_human_review := some (!quality_report.approved)
               timestamp := env.now },
              saveHistoryToDisk appended)

/-- The payload dictionary ContentPipeline.process_feedback returns. -/
structure FeedbackPayload where
  success : Bool
  error : Option String
  message : Option String
  timestamp : String
deriving DecidableEq, Repr

/-- Embedding of ContentPipeline.process_feedback: save the feedback into
the history, learn from it when it is approved, and report success.  No
step of the body raises in the embedding (the disk writes are the only
raise points of the source body and are not what claims about feedback
matching concern), so the except branch is unreachable here. -/
def processFeedback (now : String) (st : HistoryState) (prefs : UserPrefs)
    (request_id : String) (feedback : FDict) :
    FeedbackPayload × HistoryState × UserPrefs :=
  let st' := addFeedback now request_id feedback st
  let prefs' :=
    if (dictGetD feedback "approved" (.b false)).truthy then
      learnFromFeedback prefs
        (match dictGetD feedback "content_type" (.s "") with
          | .s v => v
          | _ => "") feedback
    else prefs
  ({ success := true
     error := none
     message := some "Feedback processed and learned from"
     timestamp := now }, st', prefs')

/-- A concrete content request used to instantiate theorems. -/
def reqA : ContentRequest :=
  { request_id := "req-1"
    topic := "lean verification"
    content_type := "blog_post"
    priority := "medium"
    target_audience := none
    key_points := none
    tone := none
    length := none
    seo_keywords := none
    deadline := none
    brand_voice := none
    additional_context := none }

/-- A concrete draft whose request_id is the plan id "plan-1". -/
def draftA : ContentDraft :=
  { request_id := "plan-1"
    title := "T"
    content := "c"
    meta_description := none
    tags := none
    word_count := 1
    readability_score := none }

/-- A second concrete draft with a different id. -/
def draftB : ContentDraft :=
  { draftA with request_id := "plan-2" }

/-- A concrete quality report. -/
def reportA : QualityReport :=
  { request_id := "plan-1"
    overall_score := 75
    readability_score := 0
    seo_score := 20
    brand_voice_score := 75
    issues := []
    suggestions := []
    approved := false }

/-- A concrete stored session for draftA. -/
def sessA : Session := mkSession "2026-01-01T00:00:00" reqA draftA reportA false

/-- A concrete stored session for draftB. -/
def sessB : Session := mkSession "2026-01-02T00:00:00" reqA draftB reportA false

/-- A concrete two-session history state. -/
def histAB : HistoryState := { history := [sessA, sessB], disk := [sessA, sessB] }

theorem addFeedbackList_length (now rid : String) (fb : FDict) (l : List Session) :
    (addFeedbackList now rid fb l).length = l.length := by
  induction l with
  | nil => rfl
  | cons s rest ih =>
    by_cases hs : s.draft.request_id == rid <;>
      simp [addFeedbackList, hs, ih]

theorem addFeedbackList_no_match (now rid : String) (fb : FDict) (l : List Session)
    (h : ∀ s ∈ l, s.draft.request_id ≠ rid) :
    addFeedbackList now rid fb l = l := by
  induction l with
  | nil => rfl
  | cons s rest ih =>
    have hs : (s.draft.request_id == rid) = false := by
      simp only [beq_eq_false_iff_ne, ne_eq]
      exact h s (List.mem_cons_self s rest)
    simp only [addFeedbackList, hs, Bool.false_eq_true, if_false, List.cons.injEq, true_and]
    exact ih (fun x hx => h x (List.mem_cons_of_mem s hx))

theorem addFeedbackList_match (now rid : String) (fb : FDict) (l : List Session)
    (h : ∃ s ∈ l, s.draft.request_id = rid) :
    (∀ i, i ≠ l.findIdx (fun s => s.draft.request_id == rid) →
      (addFeedbackList now rid fb l).get? i = l.get? i)
    ∧ (addFeedbackList now rid fb l).get? (l.findIdx (fun s => s.draft.request_id == rid))
        = (l.get? (l.findIdx (fun s => s.draft.request_id == rid))).map
            (fun s => { s with feedback := some (dictSet fb "timestamp" (.s now)) }) := by
  induction l with
  | nil => simp at h
  | cons s rest ih =>
    by_cases hs : s.draft.request_id = rid
    · have hb : (s.draft.request_id == rid) = true := by simpa using hs
      constructor
      · intro i hi
        rw [List.findIdx_cons, hb] at hi
        simp only [cond_true] at hi
        match i, hi with
        | i + 1, _ => simp [addFeedbackList, hb]
      · rw [List.findIdx_cons, hb]
        simp [addFeedbackList, hb]
    · have hb : (s.draft.request_id == rid) = false := by simpa using hs
      have hrest : ∃ x ∈ rest, x.draft.request_id = rid := by
        rcases h with ⟨x, hx, hxe⟩
        rcases List.mem_cons.mp hx with rfl | hxr
        · exact absurd hxe hs
        · exact ⟨x, hxr, hxe⟩
      rcases ih hrest with ⟨ih1, ih2⟩
      constructor
      · intro i hi
        rw [List.findIdx_cons, hb] at hi
        simp only [cond_false] at hi
        match i with
        | 0 => simp [addFeedbackList, hb]
        | i + 1 =>
          have : i ≠ rest.findIdx (fun s => s.draft.request_id == rid) := by omega
          simpa [addFeedbackList, hb] using ih1 i this
      · rw [List.findIdx_cons, hb]
        simpa [addFeedbackList, hb] using ih2

/-- Claim C3: QualityChecker._extract_score returns the first numeric substring
of the text (the leftmost match of the digit-run-with-optional-fraction
scanner) parsed as a number and clamped by max(0, min(100, score)); a
text containing no digit yields the default 75.0; the result always lies
in the interval from 0 to 100. -/
theorem extract_score_clamped_with_default (text : String) :
    (0 ≤ extractScore text ∧ extractScore text ≤ 100)
    ∧ ((∀ c ∈ text.data, ¬ c.isDigit) → extractScore text = 75)
    ∧ (∀ t, scanNumber text.data = some t →
        extractScore text = max 0 (min 100 (tokenValue t))) := by
  refine ⟨⟨extractScore_nonneg text, extractScore_le_100 text⟩, ?_, ?_⟩
  · intro h
    unfold extractScore
    rw [scanNumber_eq_none_of_no_digit text.data h]
  · intro t ht
    unfold extractScore
    rw [ht]

/-- Witness for claim C3: the theorem applied at concrete inputs, the hypotheses
discharged by evaluation. -/
theorem extract_score_clamped_with_default_witness :
    (0 ≤ extractScore "Score: 850.5/100" ∧ extractScore "Score: 850.5/100" ≤ 100)
    ∧ extractScore "no numeric content" = 75
    ∧ extractScore "Score: 850.5/100" = max 0 (min 100 (tokenValue (['8', '5', '0'], ['5']))) :=
  ⟨(extract_score_clamped_with_default "Score: 850.5/100").1,
   (extract_score_clamped_with_default "no numeric content").2.1 (by decide),
   (extract_score_clamped_with_default "Score: 850.5/100").2.2 (['8', '5', '0'], ['5'])
     (by decide)⟩

/-- Claim C4: ContentHistory.save_content_session is append-only: the new
history is one longer, its prefix of the old length is exactly the old
list (every prior session unchanged in content and position), and the
single new session sits at the end. -/
theorem save_content_session_append_only (st : HistoryState) (now : String)
    (request : ContentRequest) (draft : ContentDraft) (report : QualityReport)
    (approved : Bool) :
    (saveContentSession now request draft report approved st).history.length
        = st.history.length + 1
    ∧ (saveContentSession now request draft report approved st).history.take
          st.history.length = st.history
    ∧ (saveContentSession now request draft report approved st).history.getLast?
        = some (mkSession now request draft report approved) := by
  refine ⟨?_, ?_, ?_⟩
  · simp [saveContentSession, saveHistoryToDisk]
  · simp [saveContentSession, saveHistoryToDisk, List.take_left]
  · simp [saveContentSession, saveHistoryToDisk]

/-- Counterexample for claim C2: the session dictionary that
ContentHistory.save_content_session builds has no plan entry, so the
claimed four core records are not all present. -/
theorem session_dict_has_no_plan_key : "plan" ∉ sessionKeys := by decide

/-- Claim C2 as amended: the session appended for a successful run holds a
timestamp, three of the four records (Request, Draft, QualityReport, but
no Plan), the approved flag and a feedback field initially unset, and
the whole history list is rewritten to disk on every change (both on
save_content_session and on add_feedback). -/
theorem save_session_shape (st : HistoryState) (now : String)
    (request : ContentRequest) (draft : ContentDraft) (report : QualityReport)
    (approved : Bool) (rid : String) (fb : FDict) :
    (saveContentSession now request draft report approved st).history
        = st.history ++
            [{ timestamp := now
               request := request
               draft := draft
               quality_report := report
               approved := approved
               feedback := none }]
    ∧ (saveContentSession now request draft report approved st).disk
        = (saveContentSession now request draft report approved st).history
    ∧ (addFeedback now rid fb st).disk = (addFeedback now rid fb st).history
    ∧ sessionKeys
        = ["timestamp", "request", "draft", "quality_report", "approved", "feedback"]
    ∧ "plan" ∉ sessionKeys := by
  exact ⟨rfl, rfl, rfl, rfl, by decide⟩

/-- Claim C5: when some stored session matches the request id,
ContentHistory.add_feedback rewrites exactly the first matching session,
setting its feedback to the given dictionary with a timestamp key added,
and leaves every other session (and every other field of the matched
session) unchanged. -/
theorem add_feedback_updates_first_match (st : HistoryState) (now rid : String)
    (fb : FDict) (h : ∃ s ∈ st.history, s.draft.request_id = rid) :
    (addFeedback now rid fb st).history.length = st.history.length
    ∧ (∀ i, i ≠ st.history.findIdx (fun s => s.draft.request_id == rid) →
        (addFeedback now rid fb st).history.get? i = st.history.get? i)
    ∧ (addFeedback now rid fb st).history.get?
          (st.history.findIdx (fun s => s.draft.request_id == rid))
        = (st.history.get? (st.history.findIdx (fun s => s.draft.request_id == rid))).map
            (fun s => { s with feedback := some (dictSet fb "timestamp" (.s now)) }) := by
  rcases addFeedbackList_match now rid fb st.history h with ⟨h1, h2⟩
  exact ⟨addFeedbackList_length now rid fb st.history, h1, h2⟩

/-- Witness for claim C5: on a concrete two-session history whose first session
matches, the first entry is rewritten with the timestamped feedback and
the second entry is untouched. -/
theorem add_feedback_updates_first_match_witness :
    (addFeedback "t1" "plan-1" [] histAB).history.length = histAB.history.length
    ∧ (addFeedback "t1" "plan-1" [] histAB).history.get? 1 = histAB.history.get? 1
    ∧ (addFeedback "t1" "plan-1" [] histAB).history.get?
          (histAB.history.findIdx (fun s => s.draft.request_id == "plan-1"))
        = (histAB.history.get?
              (histAB.history.findIdx (fun s => s.draft.request_id == "plan-1"))).map
            (fun s => { s with feedback := some (dictSet [] "timestamp" (.s "t1")) }) := by
  have h := add_feedback_updates_first_match histAB "t1" "plan-1" []
    ⟨sessA, by decide, by decide⟩
  exact ⟨h.1, h.2.1 1 (by decide), h.2.2⟩

/-- Claim C9: when no stored session matches the request id,
ContentHistory.add_feedback modifies no session and raises no error, and
ContentPipeline.process_feedback still returns a payload with success
True and no error for the unknown id. -/
theorem feedback_for_unknown_id_reports_success (st : HistoryState)
    (prefs : UserPrefs) (now rid : String) (fb : FDict)
    (h : ∀ s ∈ st.history, s.draft.request_id ≠ rid) :
    (addFeedback now rid fb st).history = st.history
    ∧ (processFeedback now st prefs rid fb).1.success = true
    ∧ (processFeedback now st prefs rid fb).1.error = none := by
  refine ⟨?_, rfl, rfl⟩
  simp only [addFeedback, saveHistoryToDisk]
  exact addFeedbackList_no_match now rid fb st.history h

/-- Witness for claim C9: the theorem applied to a concrete history holding no
session for the unknown id. -/
theorem feedback_for_unknown_id_reports_success_witness :
    (addFeedback "t2" "no-such-id" [] histAB).history = histAB.history
    ∧ (processFeedback "t2" histAB ⟨[]⟩ "no-such-id" []).1.success = true
    ∧ (processFeedback "t2" histAB ⟨[]⟩ "no-such-id" []).1.error = none :=
  feedback_for_unknown_id_reports_success histAB ⟨[]⟩ "t2" "no-such-id" [] (by decide)

/-- A concrete pipeline environment in which every external call
succeeds. -/
def envOk : PipelineEnv :=
  { routeResp := .ok ""
    planResp := .ok ""
    writeResp := .ok ""
    checkResp := .ok ""
    saveOutcome := .ok ()
    planUuid := "plan-uuid-1"
    extractedKeywords := []
    readability := 60
    now := "2026-01-01T00:00:00" }

/-- A concrete pipeline environment whose quality check stage raises. -/
def envCheckFails : PipelineEnv :=
  { envOk with checkResp := .error "boom" }

/-- An empty history state. -/
def histEmpty : HistoryState := { history := [], disk := [] }

/-- Counterexample for claim C1: on a concrete successful run, the Plan (and hence
the Draft and the QualityReport, which inherit its id) carries the fresh
uuid the planner drew, not the originating Request request_id, so not
every record of the run is keyed by the request id. -/
theorem run_records_not_keyed_by_request_id :
    reqA.request_id = "req-1"
    ∧ (processRequest envOk histEmpty reqA).1.plan.map ContentPlan.request_id
        = some "plan-uuid-1"
    ∧ ¬ ((processRequest envOk histEmpty reqA).1.plan.map ContentPlan.request_id
        = some reqA.request_id) := by
  refine ⟨rfl, rfl, ?_⟩
  intro h
  simp only [show (processRequest envOk histEmpty reqA).1.plan.map ContentPlan.request_id
      = some "plan-uuid-1" from rfl] at h
  have : "plan-uuid-1" = "req-1" := by
    injection h
  exact absurd this (by decide)

/-- Claim C1 as amended: ContentPlanner.create_plan keys the Plan by a freshly
generated uuid rather than by the request_id of the Request; the Draft
of ContentWriter.write_content and the QualityReport of
QualityChecker.check_quality then inherit the id of the Plan, so the
three produced records share one id, but that id is the fresh plan uuid
and not the originating Request request_id. -/
theorem produced_records_share_plan_uuid (uuid : String) (extracted : List String)
    (request : ContentRequest) (planText : String) (readability : ℚ)
    (plan : ContentPlan) (writeText : String) (draft : ContentDraft)
    (checkText : String) :
    (createPlanCore uuid extracted request planText).request_id = uuid
    ∧ (writeContentCore readability plan writeText).request_id = plan.request_id
    ∧ (checkQualityCore draft checkText).request_id = draft.request_id :=
  ⟨rfl, rfl, rfl⟩

/-- The first failure among the five pipeline stages of
ContentPipeline.process_request, in stage order: routing, planning,
writing, quality check, history save. -/
def firstStageFailure (env : PipelineEnv) : Option String :=
  match env.routeResp with
  | .error e => some e
  | .ok _ =>
    match env.planResp with
    | .error e => some e
    | .ok _ =>
      match env.writeResp with
      | .error e => some e
      | .ok _ =>
        match env.checkResp with
        | .error e => some e
        | .ok _ =>
          match env.saveOutcome with
          | .error e => some e
          | .ok _ => none

/-- Claim C6: ContentPipeline.process_request never propagates a stage
exception: when none of the five stages raises it returns a payload with
success True, and when some stage raises it returns a payload with
success False whose error field is the raised error string. -/
theorem process_request_catches_stage_failures (env : PipelineEnv)
    (st : HistoryState) (request : ContentRequest) :
    (firstStageFailure env = none →
      (processRequest env st request).1.success = true
      ∧ (processRequest env st request).1.error = none)
    ∧ (∀ e, firstStageFailure env = some e →
      (processRequest env st request).1.success = false
      ∧ (processRequest env st request).1.error = some e) := by
  rcases env with ⟨r, p, w, c, s, uuid, kws, rd, now⟩
  cases r <;> cases p <;> cases w <;> cases c <;> cases s <;>
    simp [processRequest, firstStageFailure, failurePayload]

/-- Witness for claim C6: the theorem applied to a concrete all-successful
environment and to a concrete environment whose quality check raises. -/
theorem process_request_catches_stage_failures_witness :
    ((processRequest envOk histEmpty reqA).1.success = true
      ∧ (processRequest envOk histEmpty reqA).1.error = none)
    ∧ ((processRequest envCheckFails histEmpty reqA).1.success = false
      ∧ (processRequest envCheckFails histEmpty reqA).1.error = some "boom") :=
  ⟨(process_request_catches_stage_failures envOk histEmpty reqA).1 rfl,
   (process_request_catches_stage_failures envCheckFails histEmpty reqA).2 "boom" rfl⟩

/-- Claim C10: SEOAnalyzer.analyze_content always returns a score between 20 and
100 inclusive: the 20 meta points are added unconditionally and the total
is capped at 100. -/
theorem seo_analyze_content_bounds (content title : String) (keywords : List String) :
    20 ≤ seoAnalyzeContent content title keywords
    ∧ seoAnalyzeContent content title keywords ≤ 100 := by
  simp only [seoAnalyzeContent]
  constructor
  · exact Nat.le_min.mpr ⟨Nat.le_add_left 20 _, by norm_num⟩
  · exact Nat.min_le_right _ 100

theorem pyStartsWith_head (s p : String) (h : pyStartsWith s p = true) (c : Char)
    (hc : p.data.head? = some c) : s.data.head? = some c := by
  unfold pyStartsWith at h
  rw [List.isPrefixOf_iff_prefix] at h
  rcases h with ⟨t, ht⟩
  rw [← ht]
  cases hp : p.data with
  | nil => rw [hp] at hc; simp at hc
  | cons a u =>
    rw [hp] at hc
    simp only [List.head?_cons, Option.some.injEq] at hc
    simp [hp, hc]

theorem pyStartsWith_clash (s p q : String) (hp : pyStartsWith s p = true)
    (hq : pyStartsWith s q = true) (c d : Char) (hc : p.data.head? = some c)
    (hd : q.data.head? = some d) (hne : c ≠ d) : False := by
  have h1 := pyStartsWith_head s p hp c hc
  have h2 := pyStartsWith_head s q hq d hd
  rw [h1] at h2
  exact hne (Option.some.inj h2)

theorem self_eq_append_ite {α : Type} (l x : List α) (c : Prop) [Decidable c]
    (h : ¬ c) : l = l ++ (if c then x else []) := by
  rw [if_neg h, List.append_nil]

theorem processQLineCore_spec (st : QualityData) (cur : Option QSection) (line : String) :
    (processQLineCore st cur line).2
        = (if line = "ISSUES:" then some QSection.issues
           else if line = "SUGGESTIONS:" then some QSection.suggestions
           else cur)
    ∧ (processQLineCore st cur line).1.issues
        = st.issues ++ (if pyStartsWith line "- " = true ∧ cur = some QSection.issues
            then [pyStrip (pyDrop line 2)] else [])
    ∧ (processQLineCore st cur line).1.suggestions
        = st.suggestions
            ++ (if pyStartsWith line "- " = true ∧ cur = some QSection.suggestions
                then [pyStrip (pyDrop line 2)] else []) := by
  by_cases c1 : line = ""
  · subst c1
    exact ⟨rfl, self_eq_append_ite _ _ _ (fun h => absurd h.1 (by decide)),
      self_eq_append_ite _ _ _ (fun h => absurd h.1 (by decide))⟩
  by_cases c2 : pyStartsWith line "OVERALL_SCORE:" = true
  · have hI : line ≠ "ISSUES:" := fun h => absurd (h ▸ c2) (by decide)
    have hS : line ≠ "SUGGESTIONS:" := fun h => absurd (h ▸ c2) (by decide)
    have hd : ¬ (pyStartsWith line "- " = true) := fun h =>
      pyStartsWith_clash line "OVERALL_SCORE:" "- " c2 h 'O' '-' (by decide) (by decide)
        (by decide)
    simp [processQLineCore, c1, c2, hI, hS, hd]
  by_cases c3 : pyStartsWith line "Content Quality:" = true
  · have hI : line ≠ "ISSUES:" := fun h => absurd (h ▸ c3) (by decide)
    have hS : line ≠ "SUGGESTIONS:" := fun h => absurd (h ▸ c3) (by decide)
    have hd : ¬ (pyStartsWith line "- " = true) := fun h =>
      pyStartsWith_clash line "Content Quality:" "- " c3 h 'C' '-' (by decide) (by decide)
        (by decide)
    simp [processQLineCore, c1, c2, c3, hI, hS, hd]
  by_cases c4 : pyStartsWith line "SEO Optimization:" = true
  · have hI : line ≠ "ISSUES:" := fun h => absurd (h ▸ c4) (by decide)
    have hS : line ≠ "SUGGESTIONS:" := fun h => absurd (h ▸ c4) (by decide)
    have hd : ¬ (pyStartsWith line "- " = true) := fun h =>
      pyStartsWith_clash line "SEO Optimization:" "- " c4 h 'S' '-' (by decide) (by decide)
        (by decide)
    simp [processQLineCore, c1, c2, c3, c4, hI, hS, hd]
  by_cases c5 : pyStartsWith line "Readability:" = true
  · have hI : line ≠ "ISSUES:" := fun h => absurd (h ▸ c5) (by decide)
    have hS : line ≠ "SUGGESTIONS:" := fun h => absurd (h ▸ c5) (by decide)
    have hd : ¬ (pyStartsWith line "- " = true) := fun h =>
      pyStartsWith_clash line "Readability:" "- " c5 h 'R' '-' (by decide) (by decide)
        (by decide)
    simp [processQLineCore, c1, c2, c3, c4, c5, hI, hS, hd]
  by_cases c6 : pyStartsWith line "Brand Voice:" = true
  · have hI : line ≠ "ISSUES:" := fun h => absurd (h ▸ c6) (by decide)
    have hS : line ≠ "SUGGESTIONS:" := fun h => absurd (h ▸ c6) (by decide)
    have hd : ¬ (pyStartsWith line "- " = true) := fun h =>
      pyStartsWith_clash line "Brand Voice:" "- " c6 h 'B' '-' (by decide) (by decide)
        (by decide)
    simp [processQLineCore, c1, c2, c3, c4, c5, c6, hI, hS, hd]
  by_cases c7 : pyStartsWith line "Technical Quality:" = true
  · have hI : line ≠ "ISSUES:" := fun h => absurd (h ▸ c7) (by decide)
    have hS : line ≠ "SUGGESTIONS:" := fun h => absurd (h ▸ c7) (by decide)
    have hd : ¬ (pyStartsWith line "- " = true) := fun h =>
      pyStartsWith_clash line "Technical Quality:" "- " c7 h 'T' '-' (by decide) (by decide)
        (by decide)
    simp [processQLineCore, c1, c2, c3, c4, c5, c6, c7, hI, hS, hd]
  by_cases c8 : line = "ISSUES:"
  · subst c8
    exact ⟨rfl, self_eq_append_ite _ _ _ (fun h => absurd h.1 (by decide)),
      self_eq_append_ite _ _ _ (fun h => absurd h.1 (by decide))⟩
  by_cases c9 : line = "SUGGESTIONS:"
  · subst c9
    exact ⟨rfl, self_eq_append_ite _ _ _ (fun h => absurd h.1 (by decide)),
      self_eq_append_ite _ _ _ (fun h => absurd h.1 (by decide))⟩
  by_cases c10 : pyStartsWith line "APPROVED:" = true
  · have hd : ¬ (pyStartsWith line "- " = true) := fun h =>
      pyStartsWith_clash line "APPROVED:" "- " c10 h 'A' '-' (by decide) (by decide)
        (by decide)
    simp [processQLineCore, c1, c2, c3, c4, c5, c6, c7, c8, c9, c10, hd]
  rcases cur with _ | sec
  · simp [processQLineCore, c1, c2, c3, c4, c5, c6, c7, c8, c9, c10]
  · by_cases cd : pyStartsWith line "- " = true
    · cases sec
      · simp [processQLineCore, c1, c2, c3, c4, c5, c6, c7, c8, c9, c10, cd]
      · simp [processQLineCore, c1, c2, c3, c4, c5, c6, c7, c8, c9, c10, cd]
    · simp [processQLineCore, c1, c2, c3, c4, c5, c6, c7, c8, c9, c10, cd]

/-- The section header a line announces, if any, as the claim reads it:
a line whose stripped text is exactly ISSUES: or SUGGESTIONS:. -/
def headerOf (l : String) : Option QSection :=
  if pyStrip l = "ISSUES:" then some QSection.issues
  else if pyStrip l = "SUGGESTIONS:" then some QSection.suggestions
  else none

/-- The most recent section header among a list of lines. -/
def lastHeader (ls : List String) : Option QSection :=
  match ls.reverse.find? (fun l => (headerOf l).isSome) with
  | some l => headerOf l
  | none => none

/-- Each line of a list paired with the list of lines preceding it. -/
def withPrefixes : List String → List (List String × String)
  | [] => []
  | x :: xs => ([], x) :: (withPrefixes xs).map (fun p => (x :: p.1, p.2))

/-- The items the claim predicts for one section: every line whose
stripped text starts with a dash and a space and whose most recent
preceding header announces the section, in order, with the marker
stripped. -/
def claimItems (sec : QSection) (lines : List String) : List String :=
  (withPrefixes lines).filterMap (fun p =>
    if pyStartsWith (pyStrip p.2) "- " = true ∧ lastHeader p.1 = some sec then
      some (pyStrip (pyDrop (pyStrip p.2) 2))
    else none)

/-- Recursive form of the predicted items, carrying the section that the
lines before the remaining ones announced last. -/
def claimItemsFrom (sec : QSection) : Option QSection → List String → List String
  | _, [] => []
  | base, l :: ls =>
    (if pyStartsWith (pyStrip l) "- " = true ∧ base = some sec
        then [pyStrip (pyDrop (pyStrip l) 2)] else [])
      ++ claimItemsFrom sec
          (if pyStrip l = "ISSUES:" then some QSection.issues
           else if pyStrip l = "SUGGESTIONS:" then some QSection.suggestions
           else base) ls

theorem headerOf_ite (l : String) (base : Option QSection) :
    (headerOf l).orElse (fun _ => base)
      = (if pyStrip l = "ISSUES:" then some QSection.issues
         else if pyStrip l = "SUGGESTIONS:" then some QSection.suggestions
         else base) := by
  unfold headerOf
  split_ifs <;> rfl

theorem lastHeader_cons (x : String) (p : List String) :
    lastHeader (x :: p) = (lastHeader p).orElse (fun _ => headerOf x) := by
  unfold lastHeader
  rw [List.reverse_cons, List.find?_append]
  cases hf : p.reverse.find? (fun l => (headerOf l).isSome) with
  | some l =>
    have hl : (headerOf l).isSome = true := by simpa using List.find?_some hf
    cases hh : headerOf l with
    | some s => simp [Option.or, Option.orElse, hh]
    | none => rw [hh] at hl; simp at hl
  | none =>
    cases hh : headerOf x with
    | some s =>
      have hx : (fun l => (headerOf l).isSome) x = true := by simp [hh]
      simp [List.find?, hx, hh, Option.or, Option.orElse]
    | none =>
      have hx : (fun l => (headerOf l).isSome) x = false := by simp [hh]
      simp [List.find?, hx, hh, Option.or, Option.orElse]

theorem orElse_assoc_q (a b c : Option QSection) :
    (a.orElse (fun _ => b)).orElse (fun _ => c)
      = a.orElse (fun _ => b.orElse (fun _ => c)) := by
  cases a <;> rfl

theorem claimItems_general (sec : QSection) (lines : List String) :
    ∀ base : Option QSection,
      (withPrefixes lines).filterMap (fun p =>
        if pyStartsWith (pyStrip p.2) "- " = true
            ∧ (lastHeader p.1).orElse (fun _ => base) = some sec then
          some (pyStrip (pyDrop (pyStrip p.2) 2))
        else none)
      = claimItemsFrom sec base lines := by
  induction lines with
  | nil => intro base; rfl
  | cons l ls ih =>
    intro base
    simp only [withPrefixes, List.filterMap_cons, List.filterMap_map]
    have hhead : (lastHeader ([] : List String)).orElse (fun _ => base) = base := rfl
    have htail :
        ((withPrefixes ls).filterMap ((fun p =>
          if pyStartsWith (pyStrip p.2) "- " = true
              ∧ (lastHeader p.1).orElse (fun _ => base) = some sec then
            some (pyStrip (pyDrop (pyStrip p.2) 2))
          else none) ∘ (fun p => (l :: p.1, p.2))))
        = claimItemsFrom sec ((headerOf l).orElse (fun _ => base)) ls := by
      rw [← ih ((headerOf l).orElse (fun _ => base))]
      apply List.filterMap_congr
      intro p _
      simp only [Function.comp]
      rw [lastHeader_cons, orElse_assoc_q]
    rw [htail, hhead]
    by_cases hc : pyStartsWith (pyStrip l) "- " = true ∧ base = some sec
    · rw [if_pos hc]
      simp only [claimItemsFrom]
      rw [if_pos hc, headerOf_ite]
      rfl
    · rw [if_neg hc]
      simp only [claimItemsFrom]
      rw [if_neg hc, headerOf_ite]
      rfl

theorem claimItems_eq_from (sec : QSection) (lines : List String) :
    claimItems sec lines = claimItemsFrom sec none lines := by
  rw [← claimItems_general sec lines none]
  unfold claimItems
  apply List.filterMap_congr
  intro p _
  have : (lastHeader p.1).orElse (fun _ => (none : Option QSection)) = lastHeader p.1 := by
    cases lastHeader p.1 <;> rfl
  rw [this]

theorem parseQLines_items (lines : List String) :
    ∀ (st : QualityData) (cur : Option QSection),
      (parseQLines st cur lines).issues
          = st.issues ++ claimItemsFrom QSection.issues cur lines
      ∧ (parseQLines st cur lines).suggestions
          = st.suggestions ++ claimItemsFrom QSection.suggestions cur lines := by
  induction lines with
  | nil => intro st cur; simp [parseQLines, claimItemsFrom]
  | cons l ls ih =>
    intro st cur
    rcases processQLineCore_spec st cur (pyStrip l) with ⟨h1, h2, h3⟩
    rcases ih (processQLineCore st cur (pyStrip l)).1 (processQLineCore st cur (pyStrip l)).2 with
      ⟨ih1, ih2⟩
    constructor
    · show (parseQLines (processQLineCore st cur (pyStrip l)).1
          (processQLineCore st cur (pyStrip l)).2 ls).issues = _
      rw [ih1, h2, h1, List.append_assoc]
      rfl
    · show (parseQLines (processQLineCore st cur (pyStrip l)).1
          (processQLineCore st cur (pyStrip l)).2 ls).suggestions = _
      rw [ih2, h3, h1, List.append_assoc]
      rfl

theorem processPlanLineCore_title (st : PlanData) (io : Bool) (pts : List String)
    (line : String) :
    (processPlanLineCore st io pts line).1.title
      = if pyStartsWith line "TITLE:" = true
          then some (pyStrip (pyReplace line "TITLE:" ""))
        else st.title := by
  by_cases hT : pyStartsWith line "TITLE:" = true
  · have c1 : ¬ (line = "") := fun h => absurd (h ▸ hT) (by decide)
    simp [processPlanLineCore, c1, hT]
  · simp only [processPlanLineCore]
    rw [if_neg hT]
    split_ifs <;> rfl

theorem processPlanLineCore_wc (st : PlanData) (io : Bool) (pts : List String)
    (line : String) :
    (processPlanLineCore st io pts line).1.word_count_target
      = if pyStartsWith line "WORD_COUNT_TARGET:" = true
          then some (parseWordCount (pyStrip (pyReplace line "WORD_COUNT_TARGET:" "")))
        else st.word_count_target := by
  by_cases hW : pyStartsWith line "WORD_COUNT_TARGET:" = true
  · have c1 : ¬ (line = "") := fun h => absurd (h ▸ hW) (by decide)
    have h2 : ¬ (pyStartsWith line "TITLE:" = true) := fun h =>
      pyStartsWith_clash line "WORD_COUNT_TARGET:" "TITLE:" hW h 'W' 'T' (by decide)
        (by decide) (by decide)
    have h3 : ¬ (pyStartsWith line "OUTLINE:" = true) := fun h =>
      pyStartsWith_clash line "WORD_COUNT_TARGET:" "OUTLINE:" hW h 'W' 'O' (by decide)
        (by decide) (by decide)
    have h4 : ¬ (pyStartsWith line "TARGET_KEYWORDS:" = true) := fun h =>
      pyStartsWith_clash line "WORD_COUNT_TARGET:" "TARGET_KEYWORDS:" hW h 'W' 'T'
        (by decide) (by decide) (by decide)
    have h5 : ¬ (pyStartsWith line "KEY_MESSAGES:" = true) := fun h =>
      pyStartsWith_clash line "WORD_COUNT_TARGET:" "KEY_MESSAGES:" hW h 'W' 'K'
        (by decide) (by decide) (by decide)
    simp [processPlanLineCore, c1, h2, h3, h4, h5, hW]
  · simp only [processPlanLineCore]
    split_ifs <;> rfl

theorem processPlanLineCore_pts (st : PlanData) (io : Bool) (pts : List String)
    (line : String) (h : ∀ m ∈ outlineMarkers, ¬ (pyStartsWith line m = true)) :
    (processPlanLineCore st io pts line).2.2 = pts := by
  simp only [processPlanLineCore]
  split_ifs with g1 g2 g3 g4 g5 g6 g7 g8 <;> try rfl
  rcases List.any_eq_true.mp g8.2 with ⟨m, hm, hpm⟩
  exact absurd (by simpa using hpm) (h m hm)

theorem parsePlanLines_preserve {α : Type} (f : PlanData × Bool × List String → α)
    (lines : List String) :
    ∀ (st : PlanData) (io : Bool) (pts : List String),
      (∀ l ∈ lines, ∀ s2 i2 p2, f (processPlanLineCore s2 i2 p2 (pyStrip l)) = f (s2, i2, p2)) →
      f (parsePlanLines st io pts lines) = f (st, io, pts) := by
  induction lines with
  | nil => intro st io pts _; rfl
  | cons l ls ih =>
    intro st io pts h
    show f (parsePlanLines (processPlanLineCore st io pts (pyStrip l)).1
        (processPlanLineCore st io pts (pyStrip l)).2.1
        (processPlanLineCore st io pts (pyStrip l)).2.2 ls) = _
    rw [ih _ _ _ (fun x hx => h x (List.mem_cons_of_mem l hx))]
    exact h l (List.mem_cons_self l ls) st io pts

theorem parsePlanLines_title (lines : List String) :
    ∀ (st : PlanData) (io : Bool) (pts : List String),
      (parsePlanLines st io pts lines).1.title
        = match lines.reverse.find? (fun l => pyStartsWith (pyStrip l) "TITLE:") with
          | some l => some (pyStrip (pyReplace (pyStrip l) "TITLE:" ""))
          | none => st.title := by
  induction lines with
  | nil => intro st io pts; rfl
  | cons l ls ih =>
    intro st io pts
    show (parsePlanLines (processPlanLineCore st io pts (pyStrip l)).1
        (processPlanLineCore st io pts (pyStrip l)).2.1
        (processPlanLineCore st io pts (pyStrip l)).2.2 ls).1.title = _
    rw [ih]
    rw [List.reverse_cons, List.find?_append]
    cases hf : ls.reverse.find? (fun l => pyStartsWith (pyStrip l) "TITLE:") with
    | some x => simp [Option.or]
    | none =>
      simp only [Option.or]
      by_cases hp : pyStartsWith (pyStrip l) "TITLE:" = true
      · have hl : (fun l => pyStartsWith (pyStrip l) "TITLE:") l = true := by simpa using hp
        simp [List.find?, hl, processPlanLineCore_title, hp]
      · have hl : (fun l => pyStartsWith (pyStrip l) "TITLE:") l = false := by simpa using hp
        simp [List.find?, hl, processPlanLineCore_title, hp]

theorem parseQLines_preserve {α : Type} (f : QualityData → α) (lines : List String) :
    ∀ (st : QualityData) (cur : Option QSection),
      (∀ l ∈ lines, ∀ s2 c2, f (processQLineCore s2 c2 (pyStrip l)).1 = f s2) →
      f (parseQLines st cur lines) = f st := by
  induction lines with
  | nil => intro st cur _; rfl
  | cons l ls ih =>
    intro st cur h
    show f (parseQLines (processQLineCore st cur (pyStrip l)).1
        (processQLineCore st cur (pyStrip l)).2 ls) = _
    rw [ih _ _ (fun x hx => h x (List.mem_cons_of_mem l hx))]
    exact h l (List.mem_cons_self l ls) st cur

theorem processQLineCore_field_frames (st : QualityData) (cur : Option QSection)
    (line : String) :
    (pyStartsWith line "OVERALL_SCORE:" = true
        ∨ (processQLineCore st cur line).1.overall_score = st.overall_score)
    ∧ (pyStartsWith line "Content Quality:" = true
        ∨ (processQLineCore st cur line).1.content_quality_score
            = st.content_quality_score)
    ∧ (pyStartsWith line "SEO Optimization:" = true
        ∨ (processQLineCore st cur line).1.seo_score = st.seo_score)
    ∧ (pyStartsWith line "Readability:" = true
        ∨ (processQLineCore st cur line).1.readability_score = st.readability_score)
    ∧ (pyStartsWith line "Brand Voice:" = true
        ∨ (processQLineCore st cur line).1.brand_voice_score = st.brand_voice_score)
    ∧ (pyStartsWith line "Technical Quality:" = true
        ∨ (processQLineCore st cur line).1.technical_quality_score
            = st.technical_quality_score)
    ∧ (pyStartsWith line "APPROVED:" = true
        ∨ (processQLineCore st cur line).1.approved = st.approved) := by
  by_cases c1 : line = ""
  · subst c1
    exact ⟨Or.inr rfl, Or.inr rfl, Or.inr rfl, Or.inr rfl, Or.inr rfl, Or.inr rfl,
      Or.inr rfl⟩
  by_cases c2 : pyStartsWith line "OVERALL_SCORE:" = true
  · refine ⟨Or.inl c2, Or.inr ?_, Or.inr ?_, Or.inr ?_, Or.inr ?_, Or.inr ?_,
      Or.inr ?_⟩ <;> simp [processQLineCore, c1, c2]
  by_cases c3 : pyStartsWith line "Content Quality:" = true
  · refine ⟨Or.inr ?_, Or.inl c3, Or.inr ?_, Or.inr ?_, Or.inr ?_, Or.inr ?_,
      Or.inr ?_⟩ <;> simp [processQLineCore, c1, c2, c3]
  by_cases c4 : pyStartsWith line "SEO Optimization:" = true
  · refine ⟨Or.inr ?_, Or.inr ?_, Or.inl c4, Or.inr ?_, Or.inr ?_, Or.inr ?_,
      Or.inr ?_⟩ <;> simp [processQLineCore, c1, c2, c3, c4]
  by_cases c5 : pyStartsWith line "Readability:" = true
  · refine ⟨Or.inr ?_, Or.inr ?_, Or.inr ?_, Or.inl c5, Or.inr ?_, Or.inr ?_,
      Or.inr ?_⟩ <;> simp [processQLineCore, c1, c2, c3, c4, c5]
  by_cases c6 : pyStartsWith line "Brand Voice:" = true
  · refine ⟨Or.inr ?_, Or.inr ?_, Or.inr ?_, Or.inr ?_, Or.inl c6, Or.inr ?_,
      Or.inr ?_⟩ <;> simp [processQLineCore, c1, c2, c3, c4, c5, c6]
  by_cases c7 : pyStartsWith line "Technical Quality:" = true
  · refine ⟨Or.inr ?_, Or.inr ?_, Or.inr ?_, Or.inr ?_, Or.inr ?_, Or.inl c7,
      Or.inr ?_⟩ <;> simp [processQLineCore, c1, c2, c3, c4, c5, c6, c7]
  by_cases c8 : line = "ISSUES:"
  · subst c8
    exact ⟨Or.inr rfl, Or.inr rfl, Or.inr rfl, Or.inr rfl, Or.inr rfl, Or.inr rfl,
      Or.inr rfl⟩
  by_cases c9 : line = "SUGGESTIONS:"
  · subst c9
    exact ⟨Or.inr rfl, Or.inr rfl, Or.inr rfl, Or.inr rfl, Or.inr rfl, Or.inr rfl,
      Or.inr rfl⟩
  by_cases c10 : pyStartsWith line "APPROVED:" = true
  · refine ⟨Or.inr ?_, Or.inr ?_, Or.inr ?_, Or.inr ?_, Or.inr ?_, Or.inr ?_,
      Or.inl c10⟩ <;> simp [processQLineCore, c1, c2, c3, c4, c5, c6, c7, c8, c9, c10]
  refine ⟨Or.inr ?_, Or.inr ?_, Or.inr ?_, Or.inr ?_, Or.inr ?_, Or.inr ?_,
    Or.inr ?_⟩ <;>
    rcases cur with _ | sec
  all_goals try simp [processQLineCore, c1, c2, c3, c4, c5, c6, c7, c8, c9, c10]
  all_goals cases sec
  all_goals simp [processQLineCore, c1, c2, c3, c4, c5, c6, c7, c8, c9, c10]
  all_goals (split_ifs <;> rfl)

theorem claimItemsFrom_nil_of_no_dash (sec : QSection) (lines : List String) :
    ∀ base, (∀ l ∈ lines, ¬ (pyStartsWith (pyStrip l) "- " = true)) →
      claimItemsFrom sec base lines = [] := by
  induction lines with
  | nil => intro base _; rfl
  | cons l ls ih =>
    intro base h
    have hl : ¬ (pyStartsWith (pyStrip l) "- " = true) := h l (List.mem_cons_self l ls)
    simp only [claimItemsFrom]
    rw [if_neg (fun hc => hl hc.1), List.nil_append]
    exact ih _ (fun x hx => h x (List.mem_cons_of_mem l hx))

theorem parsePlanResponse_title (resp : String) :
    (parsePlanResponse resp).title
      = (parsePlanLines emptyPlanData false [] (pySplitChar '\n' (pyStrip resp))).1.title := by
  simp only [parsePlanResponse]
  split_ifs <;> rfl

theorem parsePlanResponse_wc (resp : String) :
    (parsePlanResponse resp).word_count_target
      = (parsePlanLines emptyPlanData false []
          (pySplitChar '\n' (pyStrip resp))).1.word_count_target := by
  simp only [parsePlanResponse]
  split_ifs <;> rfl

/-- Claim C7: the stage parsers scan the reply line by line for recognized
prefixes: the quality parser appends every line starting with a dash and
a space that appears after an ISSUES: or SUGGESTIONS: header, in order
and with the marker stripped, to the issues or suggestions list of the
most recently announced section; and in the plan parser a line starting
with TITLE: sets the title field (the last such line wins, with the
prefix text removed and the remainder stripped). -/
theorem stage_parsers_scan_prefixes (resp : String) (tl : String) :
    (parseQualityResponse resp).issues
        = claimItems QSection.issues (pySplitChar '\n' (pyStrip resp))
    ∧ (parseQualityResponse resp).suggestions
        = claimItems QSection.suggestions (pySplitChar '\n' (pyStrip resp))
    ∧ ((pySplitChar '\n' (pyStrip resp)).reverse.find?
          (fun l => pyStartsWith (pyStrip l) "TITLE:") = some tl →
        (parsePlanResponse resp).title
          = some (pyStrip (pyReplace (pyStrip tl) "TITLE:" ""))) := by
  refine ⟨?_, ?_, ?_⟩
  · rw [claimItems_eq_from]
    have h := (parseQLines_items (pySplitChar '\n' (pyStrip resp)) qualityDefaults none).1
    simpa [parseQualityResponse, qualityDefaults] using h
  · rw [claimItems_eq_from]
    have h := (parseQLines_items (pySplitChar '\n' (pyStrip resp)) qualityDefaults none).2
    simpa [parseQualityResponse, qualityDefaults] using h
  · intro hf
    rw [parsePlanResponse_title, parsePlanLines_title, hf]

/-- Witness for claim C7: the theorem applied to a concrete reply holding a title
line and one item under each section header. -/
theorem stage_parsers_scan_prefixes_witness :
    (parseQualityResponse "TITLE: Hi\nISSUES:\n- first issue\nSUGGESTIONS:\n- an idea").issues
        = claimItems QSection.issues
            (pySplitChar '\n' (pyStrip "TITLE: Hi\nISSUES:\n- first issue\nSUGGESTIONS:\n- an idea"))
    ∧ (parseQualityResponse "TITLE: Hi\nISSUES:\n- first issue\nSUGGESTIONS:\n- an idea").suggestions
        = claimItems QSection.suggestions
            (pySplitChar '\n' (pyStrip "TITLE: Hi\nISSUES:\n- first issue\nSUGGESTIONS:\n- an idea"))
    ∧ (parsePlanResponse "TITLE: Hi\nISSUES:\n- first issue\nSUGGESTIONS:\n- an idea").title
        = some (pyStrip (pyReplace (pyStrip "TITLE: Hi") "TITLE:" "")) := by
  have h := stage_parsers_scan_prefixes
    "TITLE: Hi\nISSUES:\n- first issue\nSUGGESTIONS:\n- an idea" "TITLE: Hi"
  exact ⟨h.1, h.2.1, h.2.2 (by decide)⟩

/-- Claim C8: hardcoded defaults are used for absent fields: when the reply
holds no line for a given field, QualityChecker._parse_quality_response
keeps overall_score 75, the per-criterion scores 75, empty issues and
suggestions lists and approved False; and ContentPlanner.create_plan
falls back to the title Content about topic, an empty outline and
word_count_target 800 when the plan reply omits those fields. -/
theorem defaults_when_fields_missing (resp uuid : String)
    (extracted : List String) (request : ContentRequest) :
    ((∀ l ∈ pySplitChar '\n' (pyStrip resp),
        ¬ (pyStartsWith (pyStrip l) "OVERALL_SCORE:" = true)) →
      (parseQualityResponse resp).overall_score = 75)
    ∧ ((∀ l ∈ pySplitChar '\n' (pyStrip resp),
        ¬ (pyStartsWith (pyStrip l) "Content Quality:" = true)) →
      (parseQualityResponse resp).content_quality_score = 75)
    ∧ ((∀ l ∈ pySplitChar '\n' (pyStrip resp),
        ¬ (pyStartsWith (pyStrip l) "SEO Optimization:" = true)) →
      (parseQualityResponse resp).seo_score = 75)
    ∧ ((∀ l ∈ pySplitChar '\n' (pyStrip resp),
        ¬ (pyStartsWith (pyStrip l) "Readability:" = true)) →
      (parseQualityResponse resp).readability_score = 75)
    ∧ ((∀ l ∈ pySplitChar '\n' (pyStrip resp),
        ¬ (pyStartsWith (pyStrip l) "Brand Voice:" = true)) →
      (parseQualityResponse resp).brand_voice_score = 75)
    ∧ ((∀ l ∈ pySplitChar '\n' (pyStrip resp),
        ¬ (pyStartsWith (pyStrip l) "Technical Quality:" = true)) →
      (parseQualityResponse resp).technical_quality_score = 75)
    ∧ ((∀ l ∈ pySplitChar '\n' (pyStrip resp),
        ¬ (pyStartsWith (pyStrip l) "- " = true)) →
      (parseQualityResponse resp).issues = []
        ∧ (parseQualityResponse resp).suggestions = [])
    ∧ ((∀ l ∈ pySplitChar '\n' (pyStrip resp),
        ¬ (pyStartsWith (pyStrip l) "APPROVED:" = true)) →
      (parseQualityResponse resp).approved = false)
    ∧ ((∀ l ∈ pySplitChar '\n' (pyStrip resp),
        ¬ (pyStartsWith (pyStrip l) "TITLE:" = true)) →
      (createPlanCore uuid extracted request resp).title
        = "Content about " ++ request.topic)
    ∧ ((∀ l ∈ pySplitChar '\n' (pyStrip resp), ∀ m ∈ outlineMarkers,
        ¬ (pyStartsWith (pyStrip l) m = true)) →
      (createPlanCore uuid extracted request resp).outline = [])
    ∧ ((∀ l ∈ pySplitChar '\n' (pyStrip resp),
        ¬ (pyStartsWith (pyStrip l) "WORD_COUNT_TARGET:" = true)) →
      (createPlanCore uuid extracted request resp).word_count_target = 800) := by
  refine ⟨?_, ?_, ?_, ?_, ?_, ?_, ?_, ?_, ?_, ?_, ?_⟩
  · intro h
    exact parseQLines_preserve QualityData.overall_score _ qualityDefaults none
      (fun l hl s2 c2 =>
        ((processQLineCore_field_frames s2 c2 (pyStrip l)).1).resolve_left (h l hl))
  · intro h
    exact parseQLines_preserve QualityData.content_quality_score _ qualityDefaults none
      (fun l hl s2 c2 =>
        ((processQLineCore_field_frames s2 c2 (pyStrip l)).2.1).resolve_left (h l hl))
  · intro h
    exact parseQLines_preserve QualityData.seo_score _ qualityDefaults none
      (fun l hl s2 c2 =>
        ((processQLineCore_field_frames s2 c2 (pyStrip l)).2.2.1).resolve_left (h l hl))
  · intro h
    exact parseQLines_preserve QualityData.readability_score _ qualityDefaults none
      (fun l hl s2 c2 =>
        ((processQLineCore_field_frames s2 c2 (pyStrip l)).2.2.2.1).resolve_left (h l hl))
  · intro h
    exact parseQLines_preserve QualityData.brand_voice_score _ qualityDefaults none
      (fun l hl s2 c2 =>
        ((processQLineCore_field_frames s2 c2 (pyStrip l)).2.2.2.2.1).resolve_left
          (h l hl))
  · intro h
    exact parseQLines_preserve QualityData.technical_quality_score _ qualityDefaults none
      (fun l hl s2 c2 =>
        ((processQLineCore_field_frames s2 c2 (pyStrip l)).2.2.2.2.2.1).resolve_left
          (h l hl))
  · intro h
    have h1 := (parseQLines_items (pySplitChar '\n' (pyStrip resp)) qualityDefaults none).1
    have h2 := (parseQLines_items (pySplitChar '\n' (pyStrip resp)) qualityDefaults none).2
    rw [claimItemsFrom_nil_of_no_dash QSection.issues _ none h] at h1
    rw [claimItemsFrom_nil_of_no_dash QSection.suggestions _ none h] at h2
    exact ⟨by simpa [parseQualityResponse, qualityDefaults] using h1,
      by simpa [parseQualityResponse, qualityDefaults] using h2⟩
  · intro h
    exact parseQLines_preserve QualityData.approved _ qualityDefaults none
      (fun l hl s2 c2 =>
        ((processQLineCore_field_frames s2 c2 (pyStrip l)).2.2.2.2.2.2).resolve_left
          (h l hl))
  · intro h
    have hN : (pySplitChar '\n' (pyStrip resp)).reverse.find?
        (fun l => pyStartsWith (pyStrip l) "TITLE:") = none :=
      List.find?_eq_none.mpr (fun x hx => by
        simpa using h x (List.mem_reverse.mp hx))
    have hT : (parsePlanResponse resp).title = none := by
      rw [parsePlanResponse_title, parsePlanLines_title, hN]
      rfl
    simp [createPlanCore, hT]
  · intro h
    have hpts : (parsePlanLines emptyPlanData false []
        (pySplitChar '\n' (pyStrip resp))).2.2 = [] :=
      parsePlanLines_preserve (fun t => t.2.2) _ emptyPlanData false []
        (fun l hl s2 i2 p2 =>
          processPlanLineCore_pts s2 i2 p2 (pyStrip l) (fun m hm => h l hl m hm))
    have hout : (parsePlanLines emptyPlanData false []
        (pySplitChar '\n' (pyStrip resp))).1.outline = none := by
      refine parsePlanLines_preserve (fun t => t.1.outline) _ emptyPlanData false []
        (fun l hl s2 i2 p2 => ?_)
      simp only [processPlanLineCore]
      split_ifs <;> rfl
    have hO : (parsePlanResponse resp).outline = none := by
      simp only [parsePlanResponse]
      rw [if_pos hpts]
      exact hout
    simp [createPlanCore, hO]
  · intro h
    have hwc : (parsePlanLines emptyPlanData false []
        (pySplitChar '\n' (pyStrip resp))).1.word_count_target = none := by
      refine parsePlanLines_preserve (fun t => t.1.word_count_target) _ emptyPlanData
        false [] (fun l hl s2 i2 p2 => ?_)
      show (processPlanLineCore s2 i2 p2 (pyStrip l)).1.word_count_target
          = s2.word_count_target
      rw [processPlanLineCore_wc, if_neg (h l hl)]
    have hW : (parsePlanResponse resp).word_count_target = none := by
      rw [parsePlanResponse_wc]
      exact hwc
    simp [createPlanCore, hW]

/-- Witness for claim C8: the theorem applied to a concrete reply with none of the
recognized lines. -/
theorem defaults_when_fields_missing_witness :
    (parseQualityResponse "hello world").overall_score = 75
    ∧ (parseQualityResponse "hello world").content_quality_score = 75
    ∧ (parseQualityResponse "hello world").seo_score = 75
    ∧ (parseQualityResponse "hello world").readability_score = 75
    ∧ (parseQualityResponse "hello world").brand_voice_score = 75
    ∧ (parseQualityResponse "hello world").technical_quality_score = 75
    ∧ ((parseQualityResponse "hello world").issues = []
        ∧ (parseQualityResponse "hello world").suggestions = [])
    ∧ (parseQualityResponse "hello world").approved = false
    ∧ (createPlanCore "u1" [] reqA "hello world").title
        = "Content about " ++ reqA.topic
    ∧ (createPlanCore "u1" [] reqA "hello world").outline = []
    ∧ (createPlanCore "u1" [] reqA "hello world").word_count_target = 800 := by
  have h := defaults_when_fields_missing "hello world" "u1" [] reqA
  exact ⟨h.1 (by decide), h.2.1 (by decide), h.2.2.1 (by decide), h.2.2.2.1 (by decide),
    h.2.2.2.2.1 (by decide), h.2.2.2.2.2.1 (by decide), h.2.2.2.2.2.2.1 (by decide),
    h.2.2.2.2.2.2.2.1 (by decide), h.2.2.2.2.2.2.2.2.1 (by decide),
    h.2.2.2.2.2.2.2.2.2.1 (by decide), h.2.2.2.2.2.2.2.2.2.2 (by decide)⟩
